import Mathlib

/-!
# Verification of the jaysonic JSON-RPC endpoint pair

Shallow embedding of the jaysonic client and server cores
(`src/client/index.js`, `src/client/tcp.js`, `src/client/http.js`,
the WebSocket client, the server core and its TCP adapter) together
with proofs about the framing, correlation, validation, dispatch and
lifecycle behaviour described in the specification.

JavaScript values that flow through the endpoints are modelled by the
`Js` type below; the JSON codec itself (`JSON.parse`) is an external
collaborator and is taken as a parameter where the code calls it,
while serialization (`JSON.stringify`) is modelled executably by
`Js.render`.
-/

/-- A JavaScript value as it appears in the message paths of the code:
`undefined`, `null`, booleans, (integer) numbers, strings, arrays and
plain objects given as key/value lists.  Integer numbers suffice for
every value the claims touch (ids and error codes are integers). -/
inductive Js where
  | undefined : Js
  | null : Js
  | bool (b : Bool) : Js
  | num (n : Int) : Js
  | str (s : String) : Js
  | arr (elems : List Js) : Js
  | obj (fields : List (String × Js)) : Js
deriving Repr

mutual

/-- Decidable equality on `Js` (the deriving handler does not support
this nested inductive). -/
def decJs : (a b : Js) → Decidable (a = b)
  | .undefined, .undefined => isTrue rfl
  | .null, .null => isTrue rfl
  | .bool a, .bool b =>
    match decEq a b with
    | isTrue h => isTrue (by rw [h])
    | isFalse h => isFalse (fun hh => by cases hh; exact h rfl)
  | .num a, .num b =>
    match decEq a b with
    | isTrue h => isTrue (by rw [h])
    | isFalse h => isFalse (fun hh => by cases hh; exact h rfl)
  | .str a, .str b =>
    match decEq a b with
    | isTrue h => isTrue (by rw [h])
    | isFalse h => isFalse (fun hh => by cases hh; exact h rfl)
  | .arr a, .arr b =>
    match decJsList a b with
    | isTrue h => isTrue (by rw [h])
    | isFalse h => isFalse (fun hh => by cases hh; exact h rfl)
  | .obj a, .obj b =>
    match decJsFields a b with
    | isTrue h => isTrue (by rw [h])
    | isFalse h => isFalse (fun hh => by cases hh; exact h rfl)
  | .undefined, .null | .undefined, .bool _ | .undefined, .num _ | .undefined, .str _
  | .undefined, .arr _ | .undefined, .obj _
  | .null, .undefined | .null, .bool _ | .null, .num _ | .null, .str _
  | .null, .arr _ | .null, .obj _
  | .bool _, .undefined | .bool _, .null | .bool _, .num _ | .bool _, .str _
  | .bool _, .arr _ | .bool _, .obj _
  | .num _, .undefined | .num _, .null | .num _, .bool _ | .num _, .str _
  | .num _, .arr _ | .num _, .obj _
  | .str _, .undefined | .str _, .null | .str _, .bool _ | .str _, .num _
  | .str _, .arr _ | .str _, .obj _
  | .arr _, .undefined | .arr _, .null | .arr _, .bool _ | .arr _, .num _
  | .arr _, .str _ | .arr _, .obj _
  | .obj _, .undefined | .obj _, .null | .obj _, .bool _ | .obj _, .num _
  | .obj _, .str _ | .obj _, .arr _ => isFalse nofun

/-- Decidable equality for lists of `Js` values. -/
def decJsList : (a b : List Js) → Decidable (a = b)
  | [], [] => isTrue rfl
  | a :: as, b :: bs =>
    match decJs a b, decJsList as bs with
    | isTrue h1, isTrue h2 => isTrue (by rw [h1, h2])
    | isFalse h1, _ => isFalse (fun hh => by cases hh; exact h1 rfl)
    | _, isFalse h2 => isFalse (fun hh => by cases hh; exact h2 rfl)
  | [], _ :: _ => isFalse nofun
  | _ :: _, [] => isFalse nofun

/-- Decidable equality for object field lists. -/
def decJsFields : (a b : List (String × Js)) → Decidable (a = b)
  | [], [] => isTrue rfl
  | (k1, v1) :: as, (k2, v2) :: bs =>
    match decEq k1 k2, decJs v1 v2, decJsFields as bs with
    | isTrue h1, isTrue h2, isTrue h3 => isTrue (by rw [h1, h2, h3])
    | isFalse h1, _, _ => isFalse (fun hh => by cases hh; exact h1 rfl)
    | _, isFalse h2, _ => isFalse (fun hh => by cases hh; exact h2 rfl)
    | _, _, isFalse h3 => isFalse (fun hh => by cases hh; exact h3 rfl)
  | [], _ :: _ => isFalse nofun
  | _ :: _, [] => isFalse nofun

end

instance : DecidableEq Js := decJs

instance {ε α : Type} [DecidableEq ε] [DecidableEq α] :
    DecidableEq (Except ε α) := fun a b =>
  match a, b with
  | .ok x, .ok y =>
    match decEq x y with
    | isTrue h => isTrue (by rw [h])
    | isFalse h => isFalse (fun hh => by cases hh; exact h rfl)
  | .error x, .error y =>
    match decEq x y with
    | isTrue h => isTrue (by rw [h])
    | isFalse h => isFalse (fun hh => by cases hh; exact h rfl)
  | .ok _, .error _ => isFalse nofun
  | .error _, .ok _ => isFalse nofun

/-- Property access `v[k]`: the first binding of `k` in an object,
`undefined` otherwise (absent key, or access on a non-object). -/
def Js.field : Js → String → Js
  | .obj fields, k =>
    match fields.find? (fun kv => kv.1 = k) with
    | some kv => kv.2
    | none => .undefined
  | _, _ => .undefined

/-- JavaScript truthiness: `undefined`, `null`, `false`, `0` and `""`
are falsy; every other value (all arrays and objects included) is
truthy. -/
def Js.truthy : Js → Bool
  | .undefined => false
  | .null => false
  | .bool b => b
  | .num n => n != 0
  | .str s => s ≠ ""
  | .arr _ => true
  | .obj _ => true

/-- `typeof v === "string"`. -/
def Js.isStr : Js → Bool
  | .str _ => true
  | _ => false

/-- `Array.isArray(v)`. -/
def Js.isArr : Js → Bool
  | .arr _ => true
  | _ => false

/-- `v === Object(v)` restricted to plain objects (arrays are handled
separately everywhere the code performs this test). -/
def Js.isObj : Js → Bool
  | .obj _ => true
  | _ => false

/-- The string content of a `Js` string, `""` otherwise. -/
def Js.asStr : Js → String
  | .str s => s
  | _ => ""

mutual

/-- `JSON.stringify` on a `Js` value.  Object keys with `undefined`
values are omitted, `undefined` array elements serialize as `null`,
exactly as in JavaScript.  String payloads in this development contain
no characters that `JSON.stringify` would escape, so strings are
emitted verbatim between quotes. -/
def Js.render : Js → String
  | .undefined => "null"
  | .null => "null"
  | .bool b => if b then "true" else "false"
  | .num n => toString n
  | .str s => "\x22" ++ s ++ "\x22"
  | .arr elems => "[" ++ String.intercalate "," (Js.renderList elems) ++ "]"
  | .obj fields => "\x7b" ++ String.intercalate "," (Js.renderFields fields) ++ "\x7d"

/-- Renders the elements of an array. -/
def Js.renderList : List Js → List String
  | [] => []
  | v :: rest => Js.render v :: Js.renderList rest

/-- Renders the fields of an object, dropping `undefined` values. -/
def Js.renderFields : List (String × Js) → List String
  | [] => []
  | (_, .undefined) :: rest => Js.renderFields rest
  | (k, v) :: rest => ("\x22" ++ k ++ "\x22:" ++ Js.render v) :: Js.renderFields rest

end

example : Js.render (.obj [("jsonrpc", .str "2.0"), ("result", .num 3), ("id", .num 1)])
    = "\x7b\x22jsonrpc\x22:\x222.0\x22,\x22result\x22:3,\x22id\x22:1\x7d" := by rfl

example : Js.render (.obj [("a", .undefined), ("id", .num 0)]) = "\x7b\x22id\x22:0\x7d" := by rfl

/-!
## Server core (`src/server/index.js`)

`Server.formatError`, `Server.validateMessage` and `Server.getResult`
are translated from the server core; `formatResponse` and the error
catalogue constants live in `src/functions.js` / `src/constants.js`,
which are not part of the sources, and are modelled from the spec
(§4.2, §4.3) where noted.
-/

/-- Error catalogue codes (spec §4.3; `ERR_CODES` of `src/constants.js`,
whose values are fixed by the spec table and the repository tests). -/
def ERR_CODES.parseError : Int := -32700
def ERR_CODES.invalidRequest : Int := -32600
def ERR_CODES.methodNotFound : Int := -32601
def ERR_CODES.invalidParams : Int := -32602
def ERR_CODES.internal : Int := -32603
def ERR_CODES.timeout : Int := -32000

/-- Canonical error messages (spec §4.3; `ERR_MSGS` of `src/constants.js`). -/
def ERR_MSGS.parseError : String := "Parse Error"
def ERR_MSGS.invalidRequest : String := "Invalid Request"
def ERR_MSGS.methodNotFound : String := "Method not found"
def ERR_MSGS.invalidParams : String := "Invalid Parameters"
def ERR_MSGS.internal : String := "Internal Error"
def ERR_MSGS.timeout : String := "Request Timeout"

/-- `Server.formatError(id, code, message = null)` from the server core:
builds the error response object (protocol-2.0 shape when the configured
version is `"2.0"`, legacy `{result, error, id}` shape otherwise) and
returns it `JSON.stringify`-ed.  A `null`/absent message falls back to
`"Unknown Error"`. -/
def Server.formatError (version : String) (id : Js) (code : Int)
    (message : Option String) : String :=
  let msg := match message with
    | some m => m
    | none => "Unknown Error"
  if version = "2.0" then
    Js.render (.obj [("jsonrpc", .str version),
      ("error", .obj [("code", .num code), ("message", .str msg)]),
      ("id", id)])
  else
    Js.render (.obj [("result", .null),
      ("error", .obj [("code", .num code), ("message", .str msg)]),
      ("id", id)])

/-- Result of `Server.validateMessage`: either a notification (falsy
`id`) or a request that passed every structural check. -/
inductive Validated where
  | notification (m : Js)
  | request (m : Js)
deriving DecidableEq, Repr

/-- The exceptional exits of `Server.validateMessage`: a thrown
`Error` whose message carries a `formatError` string, or a thrown
`BatchRequest` carrying the elements of an array message. -/
inductive VErr where
  | errObj (s : String)
  | batchReq (elems : List Js)
deriving DecidableEq, Repr

/-- `Server.validateMessage(message)` (server core): classifies a
parsed message.  Arrays become batch requests (empty arrays are an
invalid request); non-objects and non-string methods are invalid
requests; a falsy `id` means notification; a truthy `jsonrpc` field is
rejected when the *configured* version is not `"2.0"`; unknown methods
and non-array/object params raise their catalogue errors. -/
def Server.validateMessage (version : String) (methods : List String)
    (m : Js) : Except VErr Validated :=
  match m with
  | .arr elems =>
    if elems.length = 0 then
      .error (.errObj (Server.formatError version .null
        ERR_CODES.invalidRequest (some ERR_MSGS.invalidRequest)))
    else
      .error (.batchReq elems)
  | _ =>
    if ¬ m.isObj then
      .error (.errObj (Server.formatError version .null
        ERR_CODES.invalidRequest (some ERR_MSGS.invalidRequest)))
    else if ¬ (m.field "method").isStr then
      .error (.errObj (Server.formatError version (m.field "id")
        ERR_CODES.invalidRequest (some ERR_MSGS.invalidRequest)))
    else if ¬ (m.field "id").truthy then
      .ok (.notification m)
    else if (m.field "jsonrpc").truthy ∧ version ≠ "2.0" then
      .error (.errObj (Server.formatError version (m.field "id")
        ERR_CODES.invalidRequest (some ERR_MSGS.invalidRequest)))
    else if ¬ (methods.contains (m.field "method").asStr) then
      .error (.errObj (Server.formatError version (m.field "id")
        ERR_CODES.methodNotFound (some ERR_MSGS.methodNotFound)))
    else if ¬ (m.field "params").isArr ∧ ¬ (m.field "params").isObj then
      .error (.errObj (Server.formatError version (m.field "id")
        ERR_CODES.invalidParams (some ERR_MSGS.invalidParams)))
    else
      .ok (.request m)

/-- Modelled from the spec: `formatResponse` of `src/functions.js` is
not under the sources.  Per §4.2 it emits the canonical JSON of the
response variant and appends the delimiter on stream transports; the
`jsonrpc` field is forwarded from the caller (when it is `undefined`,
`JSON.stringify` drops the key, giving the legacy shape). -/
def formatResponse (jsonrpc : Js) (id : Js) (result : Js)
    (delimiter : String) : String :=
  Js.render (.obj [("jsonrpc", jsonrpc), ("result", result), ("id", id)])
    ++ delimiter

/-- The outcome of invoking a registered handler on the params value:
a synchronous return of a plain value, a deferred value (a
promise/thenable) that later settles, or a synchronous throw (tagged
with whether the thrown value is a `TypeError`). -/
inductive HandlerOut where
  | value (v : Js)
  | deferredOk (v : Js)
  | deferredErr (e : Js)
  | raise (isTypeError : Bool)
deriving DecidableEq, Repr

/-- `Server.getResult(message)` (server core): invokes the handler and
formats the result.

* A synchronous throw of a `TypeError` rejects with Invalid Parameters;
  any other throw rejects with the default Internal Error.
* A synchronous return of `undefined`/`null` makes the `result.then`
  property access itself throw a `TypeError` (JavaScript semantics), so
  it also rejects with Invalid Parameters.
* Any other synchronous value `v` resolves with
  `formatResponse(result = v || {})`.
* A thenable is awaited through `Promise.all([result])`, so fulfilment
  with `v` (`deferredOk`) resolves with `formatResponse(result = [v])`
  (the `Promise.all` array, always truthy), and rejection with `e`
  (`deferredErr`) rejects with an Internal Error whose message is
  `JSON.stringify(e.message || e)`. -/
def Server.getResult (version delimiter : String) (m : Js)
    (handler : HandlerOut) : Except String String :=
  match handler with
  | .raise true =>
    .error (Server.formatError version (m.field "id")
      ERR_CODES.invalidParams (some ERR_MSGS.invalidParams))
  | .raise false =>
    .error (Server.formatError version (m.field "id")
      ERR_CODES.internal none)
  | .value .undefined =>
    .error (Server.formatError version (m.field "id")
      ERR_CODES.invalidParams (some ERR_MSGS.invalidParams))
  | .value .null =>
    .error (Server.formatError version (m.field "id")
      ERR_CODES.invalidParams (some ERR_MSGS.invalidParams))
  | .value v =>
    .ok (formatResponse (m.field "jsonrpc") (m.field "id")
      (if v.truthy then v else .obj []) delimiter)
  | .deferredOk v =>
    .ok (formatResponse (m.field "jsonrpc") (m.field "id")
      (.arr [v]) delimiter)
  | .deferredErr e =>
    .error (Server.formatError version (m.field "id")
      ERR_CODES.internal
      (some (Js.render (if (e.field "message").truthy then e.field "message" else e))))

/-- `Server.listen` state: the `listening` flag guarding re-entry. -/
structure ServerSt where
  listening : Bool
deriving DecidableEq, Repr

/-- What the underlying `net`/`http` server does when `listen` is
invoked on it: it binds and emits `"listening"`, or it fails and emits
`"error"`. -/
inductive ListenOutcome where
  | bound (host : String) (port : Int)
  | bindError (e : String)
deriving DecidableEq, Repr

/-- `Server.listen()` (server core): when already listening the promise
is rejected with the domain error `Error("server already listening")`
and the flag keeps its value (the stray `this.server.listen` call after
the missing `return` throws `ERR_SERVER_ALREADY_LISTEN` synchronously
inside the executor, which only triggers a second, ignored rejection).
Otherwise the transport outcome decides: binding resolves with the
address and sets `listening`, a bind error rejects and clears it. -/
def Server.listen (st : ServerSt) (out : ListenOutcome) :
    ServerSt × Except String (String × Int) :=
  if st.listening then
    (st, .error "server already listening")
  else
    match out with
    | .bound host port => (⟨true⟩, .ok (host, port))
    | .bindError e => (⟨false⟩, .error e)

example :
    Server.formatError "2.0" (.num 69) ERR_CODES.invalidRequest
      (some ERR_MSGS.invalidRequest)
    = "\x7b\x22jsonrpc\x22:\x222.0\x22,\x22error\x22:\x7b\x22code\x22:-32600,\x22message\x22:\x22Invalid Request\x22\x7d,\x22id\x22:69\x7d" := by
  rfl

example :
    Server.validateMessage "2.0" ["add"]
      (.obj [("jsonrpc", .str "2.0"), ("method", .str "add"),
             ("params", .arr [.num 1, .num 2]), ("id", .num 1)])
    = .ok (.request (.obj [("jsonrpc", .str "2.0"), ("method", .str "add"),
             ("params", .arr [.num 1, .num 2]), ("id", .num 1)])) := by
  rfl

/-!
## Client receive path (`src/client/index.js`)

`Client.verifyData` splits the accumulated `messageBuffer` on the
delimiter and classifies the pieces; `listen` appends each incoming
chunk (left-trimmed) to the buffer before calling it.  `JSON.parse` is
an external collaborator and is passed as a `parse` parameter
(`parse s = none` models a `SyntaxError` throw).
-/

/-- Worker for `jsSplit`: scans the character list, emitting a piece at
every occurrence of the (nonempty) delimiter.  The fuel argument only
serves structural recursion; `jsSplit` supplies enough for the scan to
finish. -/
def jsSplitAux (delim : List Char) : Nat → List Char → List Char → List String
  | 0, rest, acc => [⟨acc.reverse ++ rest⟩]
  | fuel + 1, s, acc =>
    match s with
    | [] => [⟨acc.reverse⟩]
    | c :: cs =>
      if delim.isPrefixOf (c :: cs) then
        (⟨acc.reverse⟩ : String) :: jsSplitAux delim fuel ((c :: cs).drop delim.length) []
      else
        jsSplitAux delim fuel cs (c :: acc)

/-- `String.prototype.split(delimiter)` for a nonempty delimiter:
successive non-overlapping occurrences of the delimiter cut the string,
keeping empty pieces (`"a\n".split("\n") = ["a", ""]`,
`"".split("\n") = [""]`). -/
def jsSplit (delimiter s : String) : List String :=
  jsSplitAux delimiter.data (s.data.length + 1) s.data []

example : jsSplit "\n" "a\nb\n" = ["a", "b", ""] := by decide
example : jsSplit "\n" "" = [""] := by decide
example : jsSplit "\n" "ab" = ["ab"] := by decide

/-- The events a client emits while processing received data. -/
inductive ClientEvent where
  | notify (m : Js)
  | messageError (e : Js)
  | response (id : Js)
  | batchResponse (b : Js)
  | batchError (e : Js)
deriving DecidableEq, Repr

/-- Client state touched by the receive path: the framing buffer, the
last served response id and the response queue. -/
structure ClientState where
  messageBuffer : String
  serving_message_id : Js
  responseQueue : List (Js × Js)
deriving DecidableEq, Repr

/-- `Client.sendError({jsonrpc, id, code, message})`: builds the error
response object, defaulting `jsonrpc` to the configured version and
`message` to `"Unknown Error"` when falsy. -/
def Client.sendError (version : String) (jsonrpc id code message : Js) : Js :=
  .obj [("jsonrpc", if jsonrpc.truthy then jsonrpc else .str version),
        ("error", .obj [("code", code),
          ("message", if message.truthy then message else .str "Unknown Error")]),
        ("id", id)]

/-- The `for (const chunk of messages)` loop of `Client.verifyData`.
Empty chunks are skipped; a chunk that fails to parse emits a parse
`messageError` and returns; a parsed message without a truthy `id`
emits `notify` and returns; one with a truthy `error` emits
`messageError` and returns; one without a truthy `method` records it in
the response queue and emits `response` and returns; a message with a
truthy `id`, no error and a truthy `method` falls through to the next
chunk without any event. -/
def Client.processChunks (parse : String → Option Js) (version : String)
    (st : ClientState) : List String → ClientState × List ClientEvent
  | [] => (st, [])
  | chunk :: rest =>
    if chunk = "" then
      Client.processChunks parse version st rest
    else
      match parse chunk with
      | none =>
        (st, [.messageError (Client.sendError version .undefined
          st.serving_message_id (.num ERR_CODES.parseError)
          (.str ERR_MSGS.parseError))])
      | some message =>
        if ¬ (message.field "id").truthy then
          (st, [.notify message])
        else if (message.field "error").truthy then
          (st, [.messageError (Client.sendError version
            (message.field "jsonrpc") (message.field "id")
            ((message.field "error").field "code")
            ((message.field "error").field "message"))])
        else if ¬ (message.field "method").truthy then
          ({ st with
              serving_message_id := message.field "id",
              responseQueue :=
                st.responseQueue ++ [(message.field "id", message)] },
           [.response (message.field "id")])
        else
          Client.processChunks parse version st rest

/-- `Client.verifyData()`: split the buffer on the delimiter and clear
it.  More than one piece means delimited messages and the loop above
runs; otherwise the single piece is treated as a possible batch
response — note that `JSON.parse(messages)` coerces the *array* of
pieces to a string (elements joined by `","`) before parsing. -/
def Client.verifyData (parse : String → Option Js) (version delimiter : String)
    (st : ClientState) : ClientState × List ClientEvent :=
  let messages := jsSplit delimiter st.messageBuffer
  let st := { st with messageBuffer := "" }
  if messages.length > 1 then
    Client.processChunks parse version st messages
  else
    match parse (String.intercalate "," messages) with
    | some batch => (st, [.batchResponse batch])
    | none =>
      (st, [.batchError (Client.sendError version .undefined
        st.serving_message_id (.num ERR_CODES.parseError)
        (.str ERR_MSGS.parseError))])

/-- `String.prototype.trimLeft()` on the ASCII whitespace the wire can
carry. -/
def trimLeft (s : String) : String :=
  ⟨s.data.dropWhile fun c => c = ' ' ∨ c = '\n' ∨ c = '\t' ∨ c = '\r'⟩

/-- The `"data"` listener installed by `Client.listen()`:
`this.messageBuffer += data.trimLeft(); this.verifyData();`. -/
def Client.onData (parse : String → Option Js) (version delimiter : String)
    (st : ClientState) (data : String) : ClientState × List ClientEvent :=
  Client.verifyData parse version delimiter
    { st with messageBuffer := st.messageBuffer ++ trimLeft data }

/-- Feeds a sequence of chunks to the client, collecting all events. -/
def Client.runData (parse : String → Option Js) (version delimiter : String)
    (st : ClientState) : List String → ClientState × List ClientEvent
  | [] => (st, [])
  | data :: rest =>
    let (st1, evs1) := Client.onData parse version delimiter st data
    let (st2, evs2) := Client.runData parse version delimiter st1 rest
    (st2, evs1 ++ evs2)

/-- The client state before any data arrives
(`messageBuffer = ""`, `serving_message_id = 1`, empty queue). -/
def initClientState : ClientState := ⟨"", .num 1, []⟩

/-- The first response frame of the demonstration stream. -/
def frame1 : String := "\x7b\x22jsonrpc\x22:\x222.0\x22,\x22result\x22:1,\x22id\x22:1\x7d"

/-- The second response frame of the demonstration stream. -/
def frame2 : String := "\x7b\x22jsonrpc\x22:\x222.0\x22,\x22result\x22:2,\x22id\x22:2\x7d"

/-- The parsed value of `frame1`. -/
def resp1 : Js := .obj [("jsonrpc", .str "2.0"), ("result", .num 1), ("id", .num 1)]

/-- The parsed value of `frame2`. -/
def resp2 : Js := .obj [("jsonrpc", .str "2.0"), ("result", .num 2), ("id", .num 2)]

/-- `JSON.parse` restricted to the two demonstration frames: it returns
exactly what `JSON.parse` returns on those strings and signals a
`SyntaxError` on everything else that occurs in the demonstration
runs. -/
def demoParse (s : String) : Option Js :=
  if s = frame1 then some resp1
  else if s = frame2 then some resp2
  else none


/-!
## TCP server dispatch (`src/server/tcp.js`)

After `handleValidation` settles, the `"data"` listener of
`TCPServer.handleData` either writes the batch result, emits a
`notify` event (and nothing else) for a notification, or runs
`getResult` and writes its resolution (rejections pass through
`JSON.stringify`, which quotes the rejection string). -/

/-- Observable actions of the TCP server on one validated message. -/
inductive ServerOut where
  | write (s : String)
  | notifyEv (m : Js)
deriving DecidableEq, Repr

/-- The per-message continuation of `TCPServer.handleData` once
validation has produced a message: batches are written back joined,
notifications only raise the `notify` event, and requests write the
`getResult` resolution (or its stringified rejection). -/
def TCPServer.dispatch (delimiter : String) (m : Validated)
    (result : Except String String) : List ServerOut :=
  match m with
  | .notification msg => [.notifyEv msg]
  | .request _ =>
    match result with
    | .ok r => [.write (r ++ delimiter)]
    | .error e => [.write (Js.render (.str e) ++ delimiter)]

/-!
## Client correlation table (`src/client/index.js`, `src/client/tcp.js`)

The table maps ids to pending promise handles.  Promise settlement is
one-shot (a second `resolve`/`reject` on the same promise is a no-op),
which the `settled` log enforces.  `Client.handleResponse` and
`Client.handleError` are the listeners of the base client;
`TCPClient.timerFire` is the timeout closure scheduled by
`TCPClient.request().send` and `Client.timerFire` the one scheduled by
the base `Client.request().send`.
-/

/-- How a promise was settled. -/
inductive SettleKind where
  | sresolved
  | srejected
deriving DecidableEq, Repr

/-- Client-side correlation state: the ids present in `pendingCalls`,
the `responseQueue`, and the one-shot settlement log of each call's
promise. -/
structure CorrState where
  pending : List Int
  responseQueue : List (Int × Js)
  settled : List (Int × SettleKind × Js)
deriving DecidableEq, Repr

/-- The ids whose promise has already been settled. -/
def CorrState.settledIds (st : CorrState) : List Int :=
  st.settled.map (fun e => e.1)

/-- A promise settlement attempt: a no-op when the call's promise was
already settled (JavaScript promises are one-shot), otherwise the
outcome is recorded. -/
def settleAttempt (st : CorrState) (id : Int) (k : SettleKind) (v : Js) :
    CorrState :=
  if id ∈ st.settledIds then st
  else { st with settled := st.settled ++ [(id, k, v)] }

/-- `this.pendingCalls[requestId] = { resolve, reject }` at the start of
`request().send`: inserts the entry (object keys are unique, so an
existing entry would be overwritten, not duplicated). -/
def Client.sendRegister (st : CorrState) (id : Int) : CorrState :=
  if id ∈ st.pending then st else { st with pending := st.pending ++ [id] }

/-- Arrival of a response frame for `id`: `Client.verifyData` stores it
in `responseQueue` and emits `"response"`; the `Client.handleResponse`
listener then — only if `pendingCalls[id]` is present — resolves the
promise with `responseQueue[id]` and deletes the *queue* entry.  The
`pendingCalls` entry itself is not deleted. -/
def Client.handleResponse (st : CorrState) (id : Int) (msg : Js) : CorrState :=
  let st := { st with
    responseQueue := (st.responseQueue.filter (fun e => e.1 ≠ id)) ++ [(id, msg)] }
  if id ∈ st.pending then
    let value := match st.responseQueue.find? (fun e => e.1 = id) with
      | some e => e.2
      | none => Js.undefined
    let st := settleAttempt st id .sresolved value
    { st with responseQueue := st.responseQueue.filter (fun e => e.1 ≠ id) }
  else st

/-- The `Client.handleError` listener: rejects `pendingCalls[error.id]`
without deleting it (when the entry is absent the property access
throws, changing nothing). -/
def Client.handleErrorEv (st : CorrState) (id : Int) (err : Js) : CorrState :=
  if id ∈ st.pending then settleAttempt st id .srejected err else st

/-- The timeout error object of `src/client/tcp.js`:
`JSON.parse(formatError({jsonrpc: version, id: null, code: -32000,
message: "Request Timeout"}))`.  `formatError` itself lives in the
absent `src/functions.js`; its output here is fixed by spec §4.3/§4.4
and by the expectation of `tests/issues/#54-request-timeout.test.js`. -/
def timeoutErrorObj (version : String) : Js :=
  .obj [("jsonrpc", .str version),
        ("error", .obj [("code", .num ERR_CODES.timeout),
                        ("message", .str ERR_MSGS.timeout)]),
        ("id", .null)]

/-- The timer closure of `TCPClient.request().send`: `cleanUp` clears
the timer, then `pendingCalls[requestId].reject(error)` runs — a
`TypeError` (caught and logged) when the entry is gone — and the entry
is deleted. -/
def TCPClient.timerFire (version : String) (st : CorrState) (id : Int) :
    CorrState :=
  if id ∈ st.pending then
    let st := settleAttempt st id .srejected (timeoutErrorObj version)
    { st with pending := st.pending.erase id }
  else st

/-- The timer closure of the base `Client.request().send`: when the
entry is still present it builds `sendError({id: requestId, code:
-32000, message: "Request Timeout"})`, deletes the entry and rejects
with it; otherwise nothing happens. -/
def Client.timerFire (version : String) (st : CorrState) (id : Int) :
    CorrState :=
  if id ∈ st.pending then
    let err := Client.sendError version .undefined (.num id)
      (.num ERR_CODES.timeout) (.str ERR_MSGS.timeout)
    let st := { st with pending := st.pending.erase id }
    settleAttempt st id .srejected err
  else st

/-- The empty correlation state. -/
def initCorrState : CorrState := ⟨[], [], []⟩

/-!
## Client id allocation (`src/client/index.js`, `src/client/tcp.js`)

`message_id` starts at 1; `request().message` consumes it (and
increments) whenever an id is wanted; `request().send` reads
`message_id` into `requestId`, registers the pending call under it, and
builds the frame through `request().message`, which uses the same
counter value.
-/

/-- Modelled from the spec: `formatRequest` of `src/functions.js` is
not under the sources.  Per §4.2/§6.3 and scenario S1 it builds
`{jsonrpc: version, method, params, id?}` (the frame on the wire is its
canonical JSON plus the delimiter). -/
def formatRequest (version method : String) (params : Js) (id : Option Int) :
    Js :=
  .obj ([("jsonrpc", .str version), ("method", .str method),
         ("params", params)] ++
    (match id with
     | some n => [("id", Js.num n)]
     | none => []))

/-- The id-relevant client state: the per-instance counter. -/
structure IdClient where
  message_id : Int
deriving DecidableEq, Repr

/-- The operations that touch the counter. -/
inductive ClientOp where
  | opSend (method : String) (params : Js)
  | opMessage (method : String) (params : Js) (useId : Bool)
deriving Repr

/-- What one operation produced: `sendAlloc requestId frame` for
`request().send` (the registered pending-call key and the written
frame), `msgAlloc` / `msgNoId` for `request().message` with and without
an id. -/
inductive AllocEvent where
  | sendAlloc (requestId : Int) (frame : Js)
  | msgAlloc (frame : Js)
  | msgNoId (frame : Js)
deriving DecidableEq, Repr

/-- One client operation (`TCPClient.request()`): `message` builds the
frame with the current counter and increments it when an id is used;
`send` reads `requestId = this.message_id` first and then builds its
frame through `message`, which consumes that same counter value. -/
def TCPClient.step (version : String) (st : IdClient) :
    ClientOp → IdClient × AllocEvent
  | .opSend method params =>
    let requestId := st.message_id
    let frame := formatRequest version method params (some st.message_id)
    (⟨st.message_id + 1⟩, .sendAlloc requestId frame)
  | .opMessage method params true =>
    (⟨st.message_id + 1⟩,
     .msgAlloc (formatRequest version method params (some st.message_id)))
  | .opMessage method params false =>
    (st, .msgNoId (formatRequest version method params none))

/-- Runs a sequence of client operations. -/
def TCPClient.run (version : String) (st : IdClient) :
    List ClientOp → IdClient × List AllocEvent
  | [] => (st, [])
  | op :: rest =>
    let (st1, ev) := TCPClient.step version st op
    let (st2, evs) := TCPClient.run version st1 rest
    (st2, ev :: evs)

/-- A fresh client: `this.message_id = 1`. -/
def initIdClient : IdClient := ⟨1⟩

/-- The ids allocated by a run, in order (the id of every frame that
was built with one). -/
def allocatedIds : List AllocEvent → List Int
  | [] => []
  | .sendAlloc requestId _ :: rest => requestId :: allocatedIds rest
  | .msgAlloc frame :: rest =>
    (match frame.field "id" with
     | .num n => [n]
     | _ => []) ++ allocatedIds rest
  | .msgNoId _ :: rest => allocatedIds rest

/-!
## Batch correlation (`src/client/tcp.js` `gotBatchResponse`)

Pending batches are keyed by `String(batchIds)`; `Object.keys`
iteration re-parses each key with `JSON.parse("[" + ids + "]")`, so a
pending batch is represented by its id list.  For each pending batch
the code computes the one-sided difference `pendingIds.filter(c =>
!responseIds.includes(c))`; when it is empty the entry settles:
rejected with the batch if any element carries a truthy `error`
(the subsequent `resolve` then hits a deleted entry and its
`TypeError` is swallowed), resolved with the batch otherwise.
-/

/-- How a pending batch settled. -/
inductive BatchSettle where
  | resolvedB (b : List Js)
  | rejectedB (b : List Js)
deriving DecidableEq, Repr

/-- The `batchResponseIds` accumulation of `gotBatchResponse`: the
(truthy) `id` values of the response elements, in order. -/
def responseIds (batch : List Js) : List Js :=
  batch.filterMap fun m =>
    if (m.field "id").truthy then some (m.field "id") else none

/-- The loop body of `gotBatchResponse` for one pending key `ids`:
the one-sided difference `ids.filter(c => !respIds.includes(c))`
decides whether the entry settles, and any truthy `error` element makes
the rejection win over the subsequent resolve (whose `TypeError` on the
deleted entry is swallowed). -/
def TCPClient.settleEntry (respIds batch ids : List Js) :
    List Js × Option BatchSettle :=
  let difference := ids.filter fun c => !(respIds.contains c)
  if difference.isEmpty then
    (ids, some (if batch.any (fun m => (m.field "error").truthy) then
      .rejectedB batch
    else
      .resolvedB batch))
  else
    (ids, none)

/-- `TCPClient.gotBatchResponse(batch)` over the pending-batch table:
returns, for every pending id list, how (and whether) its entry
settled. -/
def TCPClient.gotBatchResponse (pendingBatches : List (List Js))
    (batch : List Js) : List (List Js × Option BatchSettle) :=
  pendingBatches.map (TCPClient.settleEntry (responseIds batch) batch)

/-!
## Claim theorems
-/

/-- Claim C1 (code bug).  Frame extraction is *not* partition-invariant
and loses bytes: the two-frame stream `frame1\nframe2\n` delivered as a
single chunk makes `Client.verifyData` process only the first frame
(the `return` inside the `for` loop ends processing) while the already
cleared buffer retains nothing of `frame2`; the same bytes delivered
frame-aligned in two chunks yield both frames.  A lone partial chunk
(no delimiter) is not retained either: the buffer is cleared and the
fragment is fed to `JSON.parse`, producing a spurious parse error. -/
theorem c1_framing_loses_frames :
    (Client.runData demoParse "2.0" "\n" initClientState
      [frame1 ++ "\n" ++ frame2 ++ "\n"]).2
      = [.response (.num 1)] ∧
    (Client.runData demoParse "2.0" "\n" initClientState
      [frame1 ++ "\n" ++ frame2 ++ "\n"]).1.messageBuffer = "" ∧
    (Client.runData demoParse "2.0" "\n" initClientState
      [frame1 ++ "\n", frame2 ++ "\n"]).2
      = [.response (.num 1), .response (.num 2)] ∧
    (Client.runData demoParse "2.0" "\n" initClientState
      ["\x7b\x22jsonrpc\x22"]).1.messageBuffer = "" ∧
    (Client.runData demoParse "2.0" "\n" initClientState
      ["\x7b\x22jsonrpc\x22"]).2
      = [.batchError (Client.sendError "2.0" .undefined (.num 1)
          (.num ERR_CODES.parseError) (.str ERR_MSGS.parseError))] := by
  refine ⟨by decide, by decide, by decide, by decide, by decide⟩

/-- Claim C8.  A second `listen` while the server is already in the
Listening state rejects with the domain error and causes no state
transition: the state (in particular the `listening` flag) is returned
unchanged, whatever the underlying transport would have done. -/
theorem c8_listen_reentrant_rejected (st : ServerSt) (out : ListenOutcome)
    (h : st.listening = true) :
    Server.listen st out = (st, .error "server already listening") := by
  simp [Server.listen, h]

/-- Witness for C8 at a listening server and a successful bind
outcome. -/
theorem c8_listen_reentrant_rejected_witness :
    (ServerSt.mk true).listening = true ∧
    Server.listen ⟨true⟩ (.bound "127.0.0.1" 8100)
      = (⟨true⟩, .error "server already listening") :=
  ⟨rfl, c8_listen_reentrant_rejected ⟨true⟩ (.bound "127.0.0.1" 8100) rfl⟩

/-- Claim C9.  A handler that synchronously returns `undefined` or `null`
never produces a success response: the `result.then` property access
throws a `TypeError`, which `getResult`'s catch block classifies as
Invalid Parameters (`-32602`), rejecting with that error object. -/
theorem c9_nullish_result_invalid_params (version delimiter : String)
    (m : Js) :
    Server.getResult version delimiter m (.value .undefined)
      = .error (Server.formatError version (m.field "id")
          ERR_CODES.invalidParams (some ERR_MSGS.invalidParams)) ∧
    Server.getResult version delimiter m (.value .null)
      = .error (Server.formatError version (m.field "id")
          ERR_CODES.invalidParams (some ERR_MSGS.invalidParams)) :=
  ⟨rfl, rfl⟩

/-- Claim C10.  A message whose `id` field is falsy (absent, `0`, `null`,
`""`, …) is classified as a notification — the server emits a `notify`
event and writes no reply, exactly as when the field is absent (both
satisfy the same falsy-`id` test) — while the client-side `verifyData`
loop emits `notify` for it; a message with a truthy `id` is never
classified as a notification. -/
theorem c10_falsy_id_is_notification (version delimiter : String)
    (methods : List String) (m : Js) (res : Except String String)
    (hobj : m.isObj = true) (hmethod : (m.field "method").isStr = true)
    (hid : (m.field "id").truthy = false) :
    Server.validateMessage version methods m = .ok (.notification m) ∧
    TCPServer.dispatch delimiter (.notification m) res = [.notifyEv m] ∧
    (∀ (parse : String → Option Js) (st : ClientState) (rest : List String)
       (chunk : String), chunk ≠ "" → parse chunk = some m →
       (Client.processChunks parse version st (chunk :: rest)).2
         = [.notify m]) ∧
    (∀ m' : Js, (m'.field "id").truthy = true →
       ∀ r, Server.validateMessage version methods m' = .ok r →
         r ≠ .notification m') := by
  refine ⟨?_, rfl, ?_, ?_⟩
  · cases m <;> simp_all [Server.validateMessage, Js.isObj]
  · intro parse st rest chunk hchunk hparse
    simp [Client.processChunks, hchunk, hparse, hid]
  · intro m' hid2 r hr hcontra
    subst hcontra
    cases m' <;>
      simp_all [Server.validateMessage, Js.isObj] <;>
      split_ifs at hr <;> simp_all

/-- Witness for C10: a request with `id: 0` and a registered `"m"` is
treated as a notification — accepted as such by `validateMessage` and
answered only with a `notify` event. -/
theorem c10_falsy_id_is_notification_witness :
    (Js.obj [("method", .str "m"), ("params", .arr []), ("id", .num 0)]).isObj
        = true ∧
    Server.validateMessage "2.0" ["m"]
        (.obj [("method", .str "m"), ("params", .arr []), ("id", .num 0)])
      = .ok (.notification
          (.obj [("method", .str "m"), ("params", .arr []), ("id", .num 0)])) ∧
    TCPServer.dispatch "\n"
        (.notification
          (.obj [("method", .str "m"), ("params", .arr []), ("id", .num 0)]))
        (.ok "")
      = [.notifyEv
          (.obj [("method", .str "m"), ("params", .arr []), ("id", .num 0)])] := by
  have h := c10_falsy_id_is_notification "2.0" "\n" ["m"]
    (.obj [("method", .str "m"), ("params", .arr []), ("id", .num 0)])
    (.ok "") (by decide) (by decide) (by decide)
  exact ⟨by decide, h.1, h.2.1⟩

/-- The C6 demonstration message whose `jsonrpc` value `"1.0"` does not
match the configured version `"2.0"`. -/
def c6msgMismatch : Js :=
  .obj [("jsonrpc", .str "1.0"), ("method", .str "m"),
        ("params", .arr []), ("id", .num 1)]

/-- Claim C6, counterexample.  Under configured version `"2.0"` a message
whose `jsonrpc` field is `"1.0"` is *accepted* (the claim requires an
Invalid Request classification), while under configured version `"1.0"`
a message whose `jsonrpc` field matches (`"1.0"`) *is* rejected as an
Invalid Request: the code compares the configured version against the
literal `"2.0"`, never against the message's field value. -/
theorem c6_version_mismatch_counterexample :
    Server.validateMessage "2.0" ["m"] c6msgMismatch
      = .ok (.request c6msgMismatch) ∧
    Server.validateMessage "1.0" ["m"] c6msgMismatch
      = .error (.errObj (Server.formatError "1.0" (.num 1)
          ERR_CODES.invalidRequest (some ERR_MSGS.invalidRequest))) := by
  exact ⟨by decide, by decide⟩

/-- Claim C6, amended.  For a structurally valid request with a truthy
`jsonrpc` field, `validateMessage` classifies it as an Invalid Request
precisely when the *configured* version is not `"2.0"`; when it is
`"2.0"` the field's value is irrelevant and validation proceeds to the
method lookup and params checks. -/
theorem c6_version_check_is_config_only (version : String)
    (methods : List String) (m : Js)
    (hobj : m.isObj = true) (hmethod : (m.field "method").isStr = true)
    (hid : (m.field "id").truthy = true)
    (hjsonrpc : (m.field "jsonrpc").truthy = true) :
    (version ≠ "2.0" →
      Server.validateMessage version methods m
        = .error (.errObj (Server.formatError version (m.field "id")
            ERR_CODES.invalidRequest (some ERR_MSGS.invalidRequest)))) ∧
    (version = "2.0" →
      Server.validateMessage version methods m
        = if ¬ (methods.contains (m.field "method").asStr) then
            .error (.errObj (Server.formatError version (m.field "id")
              ERR_CODES.methodNotFound (some ERR_MSGS.methodNotFound)))
          else if ¬ (m.field "params").isArr ∧ ¬ (m.field "params").isObj then
            .error (.errObj (Server.formatError version (m.field "id")
              ERR_CODES.invalidParams (some ERR_MSGS.invalidParams)))
          else
            .ok (.request m)) := by
  constructor
  · intro hv
    cases m <;> simp_all [Server.validateMessage, Js.isObj]
  · intro hv
    subst hv
    cases m <;> simp_all [Server.validateMessage, Js.isObj]

/-- Witness for C6 (amended) at the mismatching message: with the
configured version `"1.0"` the truthy `jsonrpc` field forces the
Invalid Request rejection. -/
theorem c6_version_check_is_config_only_witness :
    c6msgMismatch.isObj = true ∧
    ("1.0" : String) ≠ "2.0" ∧
    Server.validateMessage "1.0" ["m"] c6msgMismatch
      = .error (.errObj (Server.formatError "1.0" (c6msgMismatch.field "id")
          ERR_CODES.invalidRequest (some ERR_MSGS.invalidRequest))) := by
  refine ⟨by decide, by decide, ?_⟩
  exact (c6_version_check_is_config_only "1.0" ["m"] c6msgMismatch
    (by decide) (by decide) (by decide) (by decide)).1 (by decide)

/-- An emptiness/coverage reformulation of the one-sided difference
computed by `gotBatchResponse`. -/
theorem filter_not_isEmpty_eq_all {α : Type} (l : List α) (p : α → Bool) :
    (l.filter fun c => !(p c)).isEmpty = l.all p := by
  induction l with
  | nil => rfl
  | cons a t ih =>
    by_cases h : p a = true <;> simp [h, ih, List.filter]

/-- The C2 demonstration response batch: two successful responses with
ids `1` and `2`. -/
def c2batch : List Js :=
  [.obj [("jsonrpc", .str "2.0"), ("result", .num 10), ("id", .num 1)],
   .obj [("jsonrpc", .str "2.0"), ("result", .num 20), ("id", .num 2)]]

/-- Claim C2, counterexample.  A pending batch registered for the id set
`{1}` is settled (resolved) by a response batch whose id set is
`{1, 2}`: the symmetric difference is `{2} ≠ ∅`, so the claim requires
the batch *not* to settle, but the code only checks the one-sided
difference `pending \ response`. -/
theorem c2_set_equality_counterexample :
    TCPClient.gotBatchResponse [[Js.num 1]] c2batch
      = [([Js.num 1], some (.resolvedB c2batch))] ∧
    responseIds c2batch = [Js.num 1, Js.num 2] ∧
    (Js.num 2) ∉ [Js.num 1] := by
  exact ⟨by decide, by decide, by decide⟩

/-- Claim C2, amended.  `gotBatchResponse` settles a pending batch iff
every id registered for it occurs among the response ids (the pending
set is *covered* by the response set — equal sets in particular, but
also any response superset); a settled batch is rejected with the batch
value when any response element carries a truthy `error`, and resolved
with the batch value otherwise. -/
theorem c2_batch_settles_iff_ids_covered
    (pendingBatches : List (List Js)) (batch : List Js) (ids : List Js)
    (os : Option BatchSettle)
    (hmem : (ids, os) ∈ TCPClient.gotBatchResponse pendingBatches batch) :
    os = if ids.all (fun c => (responseIds batch).contains c) then
        some (if batch.any (fun m => (m.field "error").truthy) then
          .rejectedB batch else .resolvedB batch)
      else none := by
  unfold TCPClient.gotBatchResponse at hmem
  simp only [List.mem_map] at hmem
  obtain ⟨ids', -, heq⟩ := hmem
  unfold TCPClient.settleEntry at heq
  by_cases hcov :
      (ids'.filter fun c => !((responseIds batch).contains c)).isEmpty = true
  · rw [if_pos hcov] at heq
    cases heq
    rw [filter_not_isEmpty_eq_all] at hcov
    rw [if_pos hcov]
  · rw [if_neg hcov] at heq
    cases heq
    rw [filter_not_isEmpty_eq_all] at hcov
    rw [if_neg hcov]

/-- Witness for C2 (amended): the pending id list `[1, 2]` is exactly
covered by the response ids of `c2batch`, and the error-free batch
resolves the entry with the batch value. -/
theorem c2_batch_settles_iff_ids_covered_witness :
    ([Js.num 1, Js.num 2], some (BatchSettle.resolvedB c2batch))
      ∈ TCPClient.gotBatchResponse [[Js.num 1, Js.num 2]] c2batch ∧
    some (BatchSettle.resolvedB c2batch)
      = if ([Js.num 1, Js.num 2].all
            (fun c => (responseIds c2batch).contains c)) then
          some (if c2batch.any (fun m => (m.field "error").truthy) then
            .rejectedB c2batch else .resolvedB c2batch)
        else none := by
  refine ⟨by decide, ?_⟩
  exact c2_batch_settles_iff_ids_covered [[Js.num 1, Js.num 2]] c2batch
    [Js.num 1, Js.num 2] (some (.resolvedB c2batch)) (by decide)

/-- The C4 demonstration request. -/
def c4msg : Js :=
  .obj [("jsonrpc", .str "2.0"), ("method", .str "m"),
        ("params", .arr []), ("id", .num 1)]

/-- Claim C4, counterexample.  For the registered method handler value
`3`, an immediate return and a deferred completion produce *different*
response frames: the deferred path resolves `Promise.all([result])` and
serializes its array, wrapping the result as `[3]`. -/
theorem c4_immediate_deferred_differ :
    Server.getResult "2.0" "\n" c4msg (.value (.num 3))
      = .ok "\x7b\x22jsonrpc\x22:\x222.0\x22,\x22result\x22:3,\x22id\x22:1\x7d\n" ∧
    Server.getResult "2.0" "\n" c4msg (.deferredOk (.num 3))
      = .ok "\x7b\x22jsonrpc\x22:\x222.0\x22,\x22result\x22:[3],\x22id\x22:1\x7d\n" ∧
    ("\x7b\x22jsonrpc\x22:\x222.0\x22,\x22result\x22:3,\x22id\x22:1\x7d\n" : String)
      ≠ "\x7b\x22jsonrpc\x22:\x222.0\x22,\x22result\x22:[3],\x22id\x22:1\x7d\n" := by
  exact ⟨by decide, by decide, by decide⟩

/-- Claim C4, amended.  For any handler value `v` other than
`undefined`/`null`, the immediate path responds with `result = v`
(`{}` when `v` is falsy) while the deferred path responds with
`result = [v]` — same id and same `jsonrpc`, but the deferred result is
wrapped in a one-element array, so the frames are byte-identical only
when the serializations of `v || {}` and `[v]` coincide. -/
theorem c4_deferred_wraps_result (version delimiter : String) (m v : Js)
    (h1 : v ≠ .undefined) (h2 : v ≠ .null) :
    Server.getResult version delimiter m (.value v)
      = .ok (formatResponse (m.field "jsonrpc") (m.field "id")
          (if v.truthy then v else .obj []) delimiter) ∧
    Server.getResult version delimiter m (.deferredOk v)
      = .ok (formatResponse (m.field "jsonrpc") (m.field "id")
          (.arr [v]) delimiter) := by
  cases v <;> simp_all [Server.getResult]

/-- Witness for C4 (amended) at the handler value `3`. -/
theorem c4_deferred_wraps_result_witness :
    (Js.num 3) ≠ Js.undefined ∧
    Server.getResult "2.0" "\n" c4msg (.value (.num 3))
      = .ok (formatResponse (c4msg.field "jsonrpc") (c4msg.field "id")
          (if (Js.num 3).truthy then Js.num 3 else .obj []) "\n") ∧
    Server.getResult "2.0" "\n" c4msg (.deferredOk (.num 3))
      = .ok (formatResponse (c4msg.field "jsonrpc") (c4msg.field "id")
          (.arr [.num 3]) "\n") := by
  have h := c4_deferred_wraps_result "2.0" "\n" c4msg (.num 3)
    (by decide) (by decide)
  exact ⟨by decide, h.1, h.2⟩

/-- The response frame used in the C3 demonstration run. -/
def c3respMsg : Js :=
  .obj [("jsonrpc", .str "2.0"), ("result", .num 7), ("id", .num 1)]

/-- The C3 demonstration state: request `1` was sent and its response
already arrived and resolved the promise — which leaves the
`pendingCalls` entry in place (`handleResponse` never deletes it). -/
def c3state : CorrState :=
  Client.handleResponse (Client.sendRegister initCorrState 1) 1 c3respMsg

/-- Claim C3, counterexample.  The timeout timer fires *with the pending
entry still present* (the earlier response settlement did not remove
it), yet the call is not settled with the synthesized `-32000` error:
its promise was already resolved with the response, so the reject
attempt is a no-op and only the entry removal happens. -/
theorem c3_timer_present_not_error_settled :
    (1 : Int) ∈ c3state.pending ∧
    (TCPClient.timerFire "2.0" c3state 1).settled
      = [(1, .sresolved, c3respMsg)] ∧
    (1, SettleKind.srejected, timeoutErrorObj "2.0")
      ∉ (TCPClient.timerFire "2.0" c3state 1).settled := by
  exact ⟨by decide, by decide, by decide⟩

/-- Claim C3, amended.  When the timer of `TCPClient.request().send`
fires with the entry present *and the call still unsettled*, the call
is settled exactly once with the parsed `formatError` object
`{jsonrpc, error: {code: -32000, message: "Request Timeout"},
id: null}` and the entry is removed; if the call was already settled
(a response settlement leaves the entry present), the firing only
removes the entry and produces no new settlement; if the entry is
absent the firing changes nothing (the `TypeError` is caught); and a
response arriving for an id that is no longer pending settles
nothing — it is silently dropped. -/
theorem c3_timer_fire_cases (version : String) (st : CorrState) (id : Int)
    (msg : Js) :
    (id ∈ st.pending → id ∉ st.settledIds →
      (TCPClient.timerFire version st id).settled
        = st.settled ++ [(id, .srejected, timeoutErrorObj version)] ∧
      (TCPClient.timerFire version st id).pending = st.pending.erase id) ∧
    (id ∈ st.pending → id ∈ st.settledIds →
      (TCPClient.timerFire version st id).settled = st.settled ∧
      (TCPClient.timerFire version st id).pending = st.pending.erase id) ∧
    (id ∉ st.pending → TCPClient.timerFire version st id = st) ∧
    (id ∉ st.pending →
      (Client.handleResponse st id msg).settled = st.settled) := by
  refine ⟨?_, ?_, ?_, ?_⟩
  · intro hp hs
    simp [TCPClient.timerFire, settleAttempt, hp, hs]
  · intro hp hs
    simp [TCPClient.timerFire, settleAttempt, hp, hs]
  · intro hp
    simp [TCPClient.timerFire, hp]
  · intro hp
    simp [Client.handleResponse, hp]

/-- Witness for C3 (amended): a freshly registered, unsettled call
whose timer fires is rejected once with the timeout error object and
its entry removed. -/
theorem c3_timer_fire_cases_witness :
    (1 : Int) ∈ (CorrState.mk [1] [] []).pending ∧
    (TCPClient.timerFire "2.0" ⟨[1], [], []⟩ 1).settled
      = [(1, .srejected, timeoutErrorObj "2.0")] ∧
    (TCPClient.timerFire "2.0" ⟨[1], [], []⟩ 1).pending = [] := by
  have h := (c3_timer_fire_cases "2.0" ⟨[1], [], []⟩ 1 Js.null).1
    (by decide) (by decide)
  exact ⟨by decide, by simpa using h.1, by simpa using h.2⟩

/-- The response frame used in the C5 demonstration run. -/
def c5respMsg : Js :=
  .obj [("jsonrpc", .str "2.0"), ("result", .num 9), ("id", .num 1)]

/-- The C5 demonstration state: request `1` sent, response arrived and
settled. -/
def c5state : CorrState :=
  Client.handleResponse (Client.sendRegister initCorrState 1) 1 c5respMsg

/-- Claim C5, counterexample.  Settlement by response does *not* remove
the correlation-table entry: after the response for id `1` resolves the
call, `pendingCalls` still contains `1` (only the timer path deletes
entries). -/
theorem c5_entry_survives_settlement :
    c5state.settled = [(1, .sresolved, c5respMsg)] ∧
    (1 : Int) ∈ c5state.pending := by
  exact ⟨by decide, by decide⟩

/-- Claim C5, amended.  The entry for an id is created at send and is
removed only by the timeout path: `request().send` inserts it,
settlement via the `response` listener or via the `messageError`
listener leaves `pendingCalls` unchanged, and the base client's timer
closure removes the entry. -/
theorem c5_pending_entry_lifecycle (version : String) (st : CorrState)
    (id : Int) (msg err : Js) :
    (id ∉ st.pending →
      (Client.sendRegister st id).pending = st.pending ++ [id]) ∧
    (Client.handleResponse st id msg).pending = st.pending ∧
    (Client.handleErrorEv st id err).pending = st.pending ∧
    (Client.timerFire version st id).pending = st.pending.erase id := by
  refine ⟨?_, ?_, ?_, ?_⟩
  · intro hp
    simp [Client.sendRegister, hp]
  · by_cases hp : id ∈ st.pending <;>
      simp [Client.handleResponse, settleAttempt, hp] <;>
      split_ifs <;> rfl
  · by_cases hp : id ∈ st.pending <;>
      simp [Client.handleErrorEv, settleAttempt, hp] <;>
      split_ifs <;> rfl
  · by_cases hp : id ∈ st.pending
    · simp [Client.timerFire, settleAttempt, hp]
      split_ifs <;> rfl
    · simp [Client.timerFire, hp, List.erase_of_not_mem hp]

/-- Witness for C5 (amended): sending request `1` on a fresh client
creates exactly the entry `[1]`. -/
theorem c5_pending_entry_lifecycle_witness :
    (1 : Int) ∉ initCorrState.pending ∧
    (Client.sendRegister initCorrState 1).pending = [1] := by
  refine ⟨by decide, ?_⟩
  have h := (c5_pending_entry_lifecycle "2.0" initCorrState 1
    Js.null Js.null).1 (by decide)
  simpa using h

/-- The number of id-consuming operations in a run. -/
def countAllocs : List ClientOp → Nat
  | [] => 0
  | .opSend _ _ :: rest => countAllocs rest + 1
  | .opMessage _ _ true :: rest => countAllocs rest + 1
  | .opMessage _ _ false :: rest => countAllocs rest

/-- The `k` consecutive integers `n, n+1, …, n+k-1`. -/
def idRange (n : Int) : Nat → List Int
  | 0 => []
  | k + 1 => n :: idRange (n + 1) k

/-- Members of `idRange n k` lie in `[n, n+k)`. -/
theorem mem_idRange_bounds :
    ∀ (k : Nat) (n x : Int), x ∈ idRange n k → n ≤ x ∧ x < n + k := by
  intro k
  induction k with
  | zero => intro n x hx; cases hx
  | succ k ih =>
    intro n x hx
    rcases List.mem_cons.mp hx with rfl | hx
    · constructor
      · exact le_refl x
      · omega
    · have := ih (n + 1) x hx
      omega

/-- Consecutive integers are pairwise distinct. -/
theorem idRange_nodup : ∀ (k : Nat) (n : Int), (idRange n k).Nodup := by
  intro k
  induction k with
  | zero => intro n; exact List.nodup_nil
  | succ k ih =>
    intro n
    refine List.nodup_cons.mpr ⟨?_, ih (n + 1)⟩
    intro hmem
    have := mem_idRange_bounds k (n + 1) n hmem
    omega

/-- The `id` field of a frame built with an id is that id. -/
theorem formatRequest_id_field (version method : String) (params : Js)
    (n : Int) :
    (formatRequest version method params (some n)).field "id" = .num n := rfl

/-- A frame built without an id carries none. -/
theorem formatRequest_no_id_field (version method : String) (params : Js) :
    (formatRequest version method params none).field "id" = .undefined := rfl

/-- Allocated ids of a run started at counter `n`: the consecutive
integers `n, n+1, …`. -/
theorem allocatedIds_run (version : String) (n : Int) (ops : List ClientOp) :
    allocatedIds (TCPClient.run version ⟨n⟩ ops).2
      = idRange n (countAllocs ops) := by
  induction ops generalizing n with
  | nil => rfl
  | cons op rest ih =>
    cases op with
    | opSend method params =>
      simp [TCPClient.run, TCPClient.step, allocatedIds, countAllocs,
        idRange, ih]
    | opMessage method params useId =>
      cases useId with
      | true =>
        simp [TCPClient.run, TCPClient.step, allocatedIds, countAllocs,
          idRange, formatRequest_id_field, ih]
      | false =>
        simp [TCPClient.run, TCPClient.step, allocatedIds, countAllocs,
          formatRequest_no_id_field, ih]

/-- Every `send` event's frame carries the registered id. -/
theorem sendAlloc_frame_id (version : String) (ops : List ClientOp) :
    ∀ (st : IdClient) (requestId : Int) (frame : Js),
      AllocEvent.sendAlloc requestId frame
          ∈ (TCPClient.run version st ops).2 →
        frame.field "id" = .num requestId := by
  induction ops with
  | nil => intro st requestId frame hmem; cases hmem
  | cons op rest ih =>
    intro st requestId frame hmem
    cases op with
    | opSend method params =>
      simp only [TCPClient.run, TCPClient.step, List.mem_cons] at hmem
      rcases hmem with heq | hmem
      · cases heq
        exact formatRequest_id_field ..
      · exact ih _ _ _ hmem
    | opMessage method params useId =>
      cases useId <;>
        simp only [TCPClient.run, TCPClient.step, List.mem_cons] at hmem <;>
        rcases hmem with heq | hmem <;>
        first
          | cases heq
          | exact ih _ _ _ hmem

/-- Claim C7.  On a fresh client the ids consumed by
`request().message` / `request().send` are exactly the consecutive
integers `1, 2, 3, …` — strictly increasing by `1` from `1`, hence
pairwise distinct, so an id is never reused (in particular not while
its pending call is live) — and every `send` registers its pending
call under exactly the id that its outgoing frame carries. -/
theorem c7_ids_monotonic_from_one (version : String) (ops : List ClientOp) :
    allocatedIds (TCPClient.run version initIdClient ops).2
      = idRange 1 (countAllocs ops) ∧
    (allocatedIds (TCPClient.run version initIdClient ops).2).Nodup ∧
    (∀ (requestId : Int) (frame : Js),
      AllocEvent.sendAlloc requestId frame
          ∈ (TCPClient.run version initIdClient ops).2 →
        frame.field "id" = .num requestId) := by
  refine ⟨allocatedIds_run version 1 ops, ?_, ?_⟩
  · have hrun : allocatedIds (TCPClient.run version initIdClient ops).2
        = idRange 1 (countAllocs ops) := allocatedIds_run version 1 ops
    rw [hrun]
    exact idRange_nodup (countAllocs ops) 1
  · exact fun requestId frame hmem =>
      sendAlloc_frame_id version ops initIdClient requestId frame hmem

/-- Witness for C7: two sends on a fresh client allocate ids `1` and
`2`, and the first send's frame carries its registered id `1`. -/
theorem c7_ids_monotonic_from_one_witness :
    allocatedIds (TCPClient.run "2.0" initIdClient
        [.opSend "add" (.arr [.num 1, .num 2]),
         .opSend "greeting" (.obj [("name", .str "Isaac")])]).2
      = [1, 2] ∧
    (formatRequest "2.0" "add" (.arr [.num 1, .num 2]) (some 1)).field "id"
      = .num 1 := by
  constructor
  · have h := (c7_ids_monotonic_from_one "2.0"
      [.opSend "add" (.arr [.num 1, .num 2]),
       .opSend "greeting" (.obj [("name", .str "Isaac")])]).1
    simpa [idRange, countAllocs] using h
  · exact (c7_ids_monotonic_from_one "2.0"
      [.opSend "add" (.arr [.num 1, .num 2]),
       .opSend "greeting" (.obj [("name", .str "Isaac")])]).2.2 1
      (formatRequest "2.0" "add" (.arr [.num 1, .num 2]) (some 1))
      (by decide)
